import Mathlib

/-!
# Verification of the ton-agent core (wallet provider + action provider + agent facade)

Shallow embedding of the TypeScript sources:
* `packages/core/src/action-providers/actionProvider.ts`
* `packages/core/src/action-providers/walletActionProvider.ts`
* `packages/core/src/agent/index.ts`
* the wallet-provider module (`WalletProvider` / `TonWalletProvider`).

JavaScript exceptions are modelled with `Except`; the JS error-class hierarchy
(`Error`, `WalletProviderError`, `ActionProviderError`, `WalletActionError`)
is modelled by the inductive `JsError`.  External SDK calls (`@ton/ton`,
`@ton/crypto`) are abstracted as oracle parameters, and the I/O side effects
the claims talk about (RPC calls, signing, submission) are made observable as
explicit effect logs returned alongside each result.
-/

/-- JS error values as thrown by this repository.  `plain` is a bare
`new Error(msg)`; the other constructors are the error classes of the
repository, each carrying a message and an optional wrapped cause
(`cause = none` models an `undefined` cause argument). -/
inductive JsError where
  | plain (msg : String)
  | walletProviderError (msg : String) (cause : Option JsError)
  | actionProviderError (msg : String) (cause : Option JsError)
  | walletActionError (msg : String) (cause : Option JsError)

/-- `instanceof WalletProviderError` check (in the source only
`WalletProviderError` itself extends `WalletProviderError`). -/
def JsError.isWalletProviderError : JsError → Bool
  | .walletProviderError _ _ => true
  | _ => false

/-- `instanceof ActionProviderError`: `WalletActionError extends
ActionProviderError`, so both constructors satisfy it. -/
def JsError.isActionProviderError : JsError → Bool
  | .actionProviderError _ _ => true
  | .walletActionError _ _ => true
  | _ => false

/-- JS string interpolation of an error value, as in
"Failed to ...: " followed by the error: `String(error)` renders as
the error name, a colon and the message. -/
def JsError.render : JsError → String
  | .plain m => "Error: " ++ m
  | .walletProviderError m _ => "WalletProviderError: " ++ m
  | .actionProviderError m _ => "ActionProviderError: " ++ m
  | .walletActionError m _ => "WalletActionError: " ++ m

/-- The characters treated as whitespace by JavaScript `String.prototype.trim`
(WhiteSpace plus LineTerminator code points). -/
def jsIsWhitespace (c : Char) : Bool :=
  c = ' ' || c = '\t' || c = '\n' || c = '\r' ||
  c = '\u000B' || c = '\u000C' || c = ' ' || c = '﻿' ||
  c = ' ' || (' ' ≤ c && c ≤ ' ') ||
  c = ' ' || c = ' ' || c = ' ' || c = ' ' ||
  c = '　'

/-- JavaScript `s.trim()`: strip leading and trailing whitespace. -/
def jsTrim (s : String) : String :=
  String.mk (List.rdropWhile jsIsWhitespace (s.toList.dropWhile jsIsWhitespace))

/-- JS truthiness of an optional string field: `undefined` and `""` are falsy. -/
def strFalsy : Option String → Bool
  | none => true
  | some s => s.isEmpty

/-- `x || d` on an optional string (JS default pattern). -/
def jsOrStr (v : Option String) (d : String) : String :=
  match v with
  | none => d
  | some s => if s.isEmpty then d else s

/-- `x || d` on an optional number (JS default pattern: `undefined` and `0`
are falsy). -/
def jsOrInt (v : Option Int) (d : Int) : Int :=
  match v with
  | none => d
  | some n => if n = 0 then d else n

/-- Substring check on character lists (`n` occurs contiguously in the
second list); used to state that an error message names a config field. -/
def listContains (n : List Char) : List Char → Bool
  | [] => n.isEmpty
  | c :: t => n.isPrefixOf (c :: t) || listContains n t

/-- The first string occurs as a substring of the second. -/
def strContains (needle hay : String) : Bool :=
  listContains needle.toList hay.toList

/-! ## Helper lemma: `jsTrim` is empty iff the string is all whitespace -/

theorem jsTrim_eq_empty_iff (s : String) :
    jsTrim s = "" ↔ ∀ c ∈ s.toList, jsIsWhitespace c := by
  unfold jsTrim
  have hmk : ∀ l : List Char, String.mk l = "" ↔ l = [] := by
    intro l
    constructor
    · intro h; exact congrArg String.toList h
    · intro h; rw [h]
  rw [hmk, List.rdropWhile_eq_nil_iff]
  constructor
  · intro h c hc
    by_cases hmem : c ∈ s.toList.dropWhile jsIsWhitespace
    · exact h c hmem
    · have hsplit := List.takeWhile_append_dropWhile
        (p := jsIsWhitespace) (l := s.toList)
      rw [← hsplit] at hc
      rcases List.mem_append.mp hc with htk | hdr
      · exact List.mem_takeWhile_imp htk
      · exact absurd hdr hmem
  · intro h c hc
    have hsplit := List.takeWhile_append_dropWhile
      (p := jsIsWhitespace) (l := s.toList)
    have : c ∈ s.toList := by
      rw [← hsplit]; exact List.mem_append.mpr (Or.inr hc)
    exact h c this

/-! ## Wallet provider embedding

From the wallet-provider module: `WalletProviderConfig`, `WalletProviderError`,
`WalletProvider.configureWithWallet`, and the concrete `TonWalletProvider`.
External SDK operations (`@ton/crypto` key derivation, `@ton/ton` address
parsing, amount conversion, wallet-contract construction) are abstracted as an
`SdkEnv` of pure oracle functions; the RPC-backed contract/client calls are
abstracted as a `ChainOracle` whose fields give the outcome of each RPC.  Each
wallet operation returns its result together with the list of chain calls it
performed, so that "fails before fetching the sequence number / submitting"
is a statement about the returned log. -/

/-- Key pair as produced by `mnemonicToPrivateKey` (byte buffers abstracted
as numbers). -/
structure KeyPairModel where
  publicKey : Nat
  secretKey : Nat
deriving DecidableEq

/-- The `WalletContractV4.create({workchain, publicKey})` result: the wallet
contract with its derived address rendered as a string. -/
structure WalletV4Model where
  publicKey : Nat
  workchain : Int
  address : String
deriving DecidableEq

/-- Oracle for the pure SDK functions used by the wallet provider. -/
structure SdkEnv where
  /-- `mnemonicToPrivateKey` from the crypto SDK: deterministic derivation of
  a key pair from the mnemonic word list. -/
  mnemonicToPrivateKey : List String → KeyPairModel
  /-- The address string of `WalletContractV4.create` for a public key and a
  workchain (deterministic in the SDK). -/
  walletAddress : Nat → Int → String
  /-- `Address.parse`: either the parsed (normalized) address or the message
  of the thrown parse error. -/
  parseAddress : String → Except String String
  /-- `toNano`: converts a decimal TON amount string to nanoTON, or throws. -/
  toNano : String → Except String Nat

/-- Outcomes of the RPC-backed contract/client calls, one field per call
site; `Except.error` is the message of the error thrown by the SDK. -/
structure ChainOracle where
  /-- `tonClient.provider(addr).getState()`: the account state type
  (for instance "active", "uninit", "frozen"). -/
  getState : Except String String
  /-- `contract.getSeqno()`. -/
  getSeqno : Except String Nat
  /-- `contract.sendTransfer(...)`: hex hash of the submitted message. -/
  sendTransferRes : Except String String
  /-- `contract.deploy(...)`: hex hash of the deployment message. -/
  deployRes : Except String String
  /-- `contract.getBalance()`. -/
  getBalanceRes : Except String Int

/-- Observable chain interactions performed by a wallet operation. -/
inductive ChainCall where
  | getStateCall
  | getSeqnoCall
  | sendTransferCall (seqno : Nat) (dest : String) (amountNano : Nat)
  | deploySubmitCall (seqno : Nat)
  | getBalanceCall
deriving DecidableEq

/-- A chain call that signs and submits a transaction. -/
def ChainCall.isSubmission : ChainCall → Bool
  | .sendTransferCall _ _ _ => true
  | .deploySubmitCall _ => true
  | _ => false

/-- The `Partial<Config>` record accepted by `configureWithWallet`
(`Config` from `packages/core/src/agent/index.ts`). -/
structure ConfigModel where
  TONCENTER_API_URL : Option String
  TONCENTER_API_KEY : Option String
  MNEMONIC_PHRASE : Option String
  WORKCHAIN : Option Int
  NETWORK : Option String

/-- The `WalletProviderConfig` record passed to the `TonWalletProvider`
constructor.  The opaque handles (`contract`, `tonClient`) are modelled by
their presence. -/
structure WalletProviderConfigModel where
  wallet : Option WalletV4Model
  contract : Bool
  tonClient : Bool
  keyPair : Option KeyPairModel
  network : Option String
  workchain : Option Int

/-- State of a constructed `TonWalletProvider` (fields assigned by the
constructor). -/
structure TonWalletProviderModel where
  wallet : WalletV4Model
  keyPair : KeyPairModel
  network : String
  workchain : Int
deriving DecidableEq

/-- The `TonWalletProvider` constructor: requires `wallet`, `contract`,
`tonClient` and `keyPair` to be present (else throws a plain `Error`), and
applies the JS defaults `config.network || "mainnet"` and
`config.workchain || 0`. -/
def TonWalletProvider.construct (config : WalletProviderConfigModel) :
    Except JsError TonWalletProviderModel :=
  match config.wallet, config.keyPair with
  | some w, some kp =>
    if config.contract && config.tonClient then
      .ok { wallet := w, keyPair := kp,
            network := jsOrStr config.network "mainnet",
            workchain := jsOrInt config.workchain 0 }
    else .error (.plain "Missing required configuration for TonWalletProvider")
  | _, _ => .error (.plain "Missing required configuration for TonWalletProvider")

/-- `getAddress()`: `this.wallet.address.toString()`. -/
def TonWalletProviderModel.getAddress (w : TonWalletProviderModel) : String :=
  w.wallet.address

/-- `getNetwork()`. -/
def TonWalletProviderModel.getNetwork (w : TonWalletProviderModel) : String :=
  w.network

/-- `getName()`. -/
def TonWalletProviderModel.getName (_ : TonWalletProviderModel) : String :=
  "TON Wallet V4"

/-- `getWorkchain()`. -/
def TonWalletProviderModel.getWorkchain (w : TonWalletProviderModel) : Int :=
  w.workchain

/-- Steps performed by `configureWithWallet` after field validation. -/
inductive CfgStep where
  | newTonClient
  | keyDerivation (mnemonic : List String)
  | createWalletContract (workchain : Int)
  | openContract
deriving DecidableEq

/-- `WalletProvider.configureWithWallet(config)`: validates the required
fields, then constructs the TON client, derives the key pair from the
mnemonic, creates the wallet contract and opens it, and builds a
`TonWalletProvider`.  The second component lists the post-validation steps
actually executed (empty when validation fails: no client construction, no
key derivation). -/
def WalletProvider.configureWithWallet (env : SdkEnv) (config : ConfigModel) :
    Except JsError TonWalletProviderModel × List CfgStep :=
  if strFalsy config.TONCENTER_API_URL || strFalsy config.TONCENTER_API_KEY then
    (.error (.walletProviderError
      "TONCENTER_API_URL and TONCENTER_API_KEY are required" none), [])
  else if strFalsy config.MNEMONIC_PHRASE then
    (.error (.walletProviderError "MNEMONIC_PHRASE is required" none), [])
  else
    let mnemonicPhrase := config.MNEMONIC_PHRASE.getD ""
    let mnemonic := (mnemonicPhrase.splitOn " ").map jsTrim
    let keyPair := env.mnemonicToPrivateKey mnemonic
    let workchain := jsOrInt config.WORKCHAIN 0
    let wallet : WalletV4Model :=
      { publicKey := keyPair.publicKey, workchain := workchain,
        address := env.walletAddress keyPair.publicKey workchain }
    let steps : List CfgStep :=
      [.newTonClient, .keyDerivation mnemonic,
       .createWalletContract workchain, .openContract]
    match TonWalletProvider.construct
        { wallet := some wallet, contract := true, tonClient := true,
          keyPair := some keyPair, network := config.NETWORK,
          workchain := some workchain } with
    | .ok p => (.ok p, steps)
    | .error e =>
      -- the surrounding catch rethrows WalletProviderError unchanged and
      -- wraps anything else
      (.error (if e.isWalletProviderError then e
        else .walletProviderError "Failed to configure wallet provider"
          (some e)), steps)

/-- `TonWalletProvider.nativeTransfer(to, value)`: parses the destination,
converts the amount, fetches the sequence number, and submits the signed
transfer.  Thrown SDK errors are caught and rethrown as a plain
`Error("Failed to transfer TON: ...")`.  The returned log lists the chain
calls made. -/
def TonWalletProviderModel.nativeTransfer (env : SdkEnv) (o : ChainOracle)
    (_w : TonWalletProviderModel) (dst value : String) :
    Except JsError String × List ChainCall :=
  match env.parseAddress dst with
  | .error e => (.error (.plain ("Failed to transfer TON: Error: " ++ e)), [])
  | .ok dest =>
    match env.toNano value with
    | .error e => (.error (.plain ("Failed to transfer TON: Error: " ++ e)), [])
    | .ok amount =>
      match o.getSeqno with
      | .error e =>
        (.error (.plain ("Failed to transfer TON: Error: " ++ e)),
         [.getSeqnoCall])
      | .ok seqno =>
        match o.sendTransferRes with
        | .error e =>
          (.error (.plain ("Failed to transfer TON: Error: " ++ e)),
           [.getSeqnoCall, .sendTransferCall seqno dest amount])
        | .ok hash =>
          (.ok hash, [.getSeqnoCall, .sendTransferCall seqno dest amount])

/-- `TonWalletProvider.isDeployed()`: queries the account state and returns
whether its type is "active".  (The `Address.parse(this.getAddress())`
round-trip always succeeds on the rendered address of the wallet and is
omitted.) -/
def TonWalletProviderModel.isDeployed (o : ChainOracle)
    (_w : TonWalletProviderModel) : Except JsError Bool × List ChainCall :=
  match o.getState with
  | .error e =>
    (.error (.plain ("Failed to check if wallet is deployed: Error: " ++ e)),
     [.getStateCall])
  | .ok t => (.ok (t == "active"), [.getStateCall])

/-- `TonWalletProvider.getBalance()`. -/
def TonWalletProviderModel.getBalance (o : ChainOracle)
    (_w : TonWalletProviderModel) : Except JsError Int × List ChainCall :=
  match o.getBalanceRes with
  | .error e =>
    (.error (.plain ("Failed to get wallet balance: Error: " ++ e)),
     [.getBalanceCall])
  | .ok b => (.ok b, [.getBalanceCall])

/-- `TonWalletProvider.deploy()`: checks deployment, returns the sentinel
string when the wallet is already deployed, otherwise fetches the sequence
number and submits the deployment. -/
def TonWalletProviderModel.deploy (o : ChainOracle)
    (w : TonWalletProviderModel) : Except JsError String × List ChainCall :=
  match TonWalletProviderModel.isDeployed o w with
  | (.error e, fx) =>
    (.error (.plain ("Failed to deploy wallet: " ++ e.render)), fx)
  | (.ok true, fx) => (.ok "Wallet is already deployed", fx)
  | (.ok false, fx) =>
    match o.getSeqno with
    | .error e =>
      (.error (.plain ("Failed to deploy wallet: Error: " ++ e)),
       fx ++ [.getSeqnoCall])
    | .ok seqno =>
      match o.deployRes with
      | .error e =>
        (.error (.plain ("Failed to deploy wallet: Error: " ++ e)),
         fx ++ [.getSeqnoCall, .deploySubmitCall seqno])
      | .ok h => (.ok h, fx ++ [.getSeqnoCall, .deploySubmitCall seqno])

/-! ## Action provider embedding

From `actionProvider.ts` and `walletActionProvider.ts`.  Action methods see
the wallet provider through its abstract interface; here that interface is a
record of oracle values (`WalletOps`).  Each action method returns its result
together with the list of wallet-provider calls it made, so that "fails
without calling nativeTransfer" is a statement about the returned log. -/

/-- The wallet-provider interface as consumed by action methods: one oracle
value per operation (the operations that can throw are `Except`). -/
structure WalletOps where
  getAddress : String
  getName : String
  getNetwork : String
  getBalance : Except JsError Int
  isDeployed : Except JsError Bool
  nativeTransfer : String → String → Except JsError String
  deploy : Except JsError String

/-- Observable wallet-provider calls made by an action method. -/
inductive WalletCall where
  | isDeployedCall
  | getBalanceCall
  | nativeTransferCall (dst value : String)
  | deployCall
deriving DecidableEq

/-- Left-pad with zeros to 9 digits. -/
def padZeros9 (s : String) : String :=
  String.mk (List.replicate (9 - s.length) '0') ++ s

/-- The balance rendering `(Number(balance) / 1_000_000_000).toFixed(9)`,
modelled as exact decimal rendering with 9 fractional digits (the source
goes through floating point; no claim depends on the rounding). -/
def formatNano9 (b : Int) : String :=
  let sign := if b < 0 then "-" else ""
  let n := b.natAbs
  sign ++ toString (n / 1000000000) ++ "." ++ padZeros9 (toString (n % 1000000000))

/-- `WalletActionProvider.getWalletDetails`: reads address, balance, name,
network and deployment status and renders the report; any thrown error is
wrapped as `WalletActionError("Failed to get wallet details", error)`. -/
def WalletActionProvider.getWalletDetails (w : WalletOps) :
    Except JsError String × List WalletCall :=
  match w.getBalance with
  | .error e =>
    (.error (.walletActionError "Failed to get wallet details" (some e)),
     [.getBalanceCall])
  | .ok balance =>
    match w.isDeployed with
    | .error e =>
      (.error (.walletActionError "Failed to get wallet details" (some e)),
       [.getBalanceCall, .isDeployedCall])
    | .ok dep =>
      (.ok (String.intercalate "\n"
        ["## Wallet Details",
         "- **Provider**: " ++ w.getName,
         "- **Address**: \x60" ++ w.getAddress ++ "\x60",
         "- **Network**: " ++ w.getNetwork,
         "- **TON Balance**: " ++ formatNano9 balance ++ " TON",
         "- **Deployed**: " ++ (if dep then "Yes" else "No")]),
       [.getBalanceCall, .isDeployedCall])

/-- The schema-validated argument object of `transfer_ton`
(`args.to` is modelled as `dst`); a missing property reads as `undefined`,
that is `none`. -/
structure TransferArgs where
  dst : Option String
  value : Option String
deriving DecidableEq

/-- `WalletActionProvider.transferTon`: requires both arguments and a
deployed wallet, reads the balance, performs the transfer and renders the
report.  Every error raised inside the method body (including the
precondition `WalletActionError`s it throws itself) is caught by the
catch of the method itself and rethrown as
`WalletActionError("Failed to transfer TON", error)`. -/
def WalletActionProvider.transferTonTry (w : WalletOps) (args : TransferArgs) :
    Except JsError String × List WalletCall :=
  if strFalsy args.dst || strFalsy args.value then
    (.error (.walletActionError
      "Destination address and transfer amount are required" none), [])
  else
    match w.isDeployed with
    | .error e => (.error e, [.isDeployedCall])
    | .ok false =>
      (.error (.walletActionError
        "Wallet is not deployed. Please deploy the wallet first." none),
       [.isDeployedCall])
    | .ok true =>
      match w.getBalance with
      | .error e => (.error e, [.isDeployedCall, .getBalanceCall])
      | .ok currentBalance =>
        let dstS := args.dst.getD ""
        let valueS := args.value.getD ""
        match w.nativeTransfer dstS valueS with
        | .error e =>
          (.error e,
           [.isDeployedCall, .getBalanceCall, .nativeTransferCall dstS valueS])
        | .ok txHash =>
          (.ok (String.intercalate "\n"
            ["## Transfer Successful",
             "- **Transaction Hash**: \x60" ++ txHash ++ "\x60",
             "- **Current Balance**: \x60" ++ toString currentBalance ++ "\x60",
             "- **Amount**: " ++ valueS ++ " TON",
             "- **Recipient**: \x60" ++ dstS ++ "\x60"]),
           [.isDeployedCall, .getBalanceCall, .nativeTransferCall dstS valueS])

/-- The catch of `transferTon`: any error escaping the try body is rethrown
as `WalletActionError("Failed to transfer TON", error)`. -/
def WalletActionProvider.transferTon (w : WalletOps) (args : TransferArgs) :
    Except JsError String × List WalletCall :=
  match WalletActionProvider.transferTonTry w args with
  | (.ok s, fx) => (.ok s, fx)
  | (.error e, fx) =>
    (.error (.walletActionError "Failed to transfer TON" (some e)), fx)

/-- `WalletActionProvider.ensureWalletDeployed`: returns the status when
already deployed, otherwise initiates deployment; errors are wrapped as
`WalletActionError("Failed to deploy wallet", error)`. -/
def WalletActionProvider.ensureWalletDeployed (w : WalletOps) :
    Except JsError String × List WalletCall :=
  match w.isDeployed with
  | .error e =>
    (.error (.walletActionError "Failed to deploy wallet" (some e)),
     [.isDeployedCall])
  | .ok true => (.ok "Wallet is already deployed and ready to use.", [.isDeployedCall])
  | .ok false =>
    match w.deploy with
    | .error e =>
      (.error (.walletActionError "Failed to deploy wallet" (some e)),
       [.isDeployedCall, .deployCall])
    | .ok txHash =>
      (.ok (String.intercalate "\n"
        ["## Wallet Deployment Initiated",
         "- **Transaction Hash**: \x60" ++ txHash ++ "\x60",
         "- The wallet deployment has been initiated. Please wait for confirmation."]),
       [.isDeployedCall, .deployCall])

/-- Argument objects passed to the `invoke` of a bound action. -/
inductive ArgsV where
  | emptyArgs
  | transferArgs (dst : Option String) (value : Option String)

/-- Modelled from the spec: the metadata record stored by the action
decorator (the decorator module itself is not among the sources; per the
spec it holds name, description, schema, a flag telling whether the method
takes the wallet provider as first argument, and the underlying function).
The schema is identified by name; the function takes the optional
wallet-provider first argument explicitly. -/
structure ActionMetadata where
  name : String
  description : String
  schemaId : String
  walletProvider : Bool
  invoke : Option WalletOps → ArgsV → Except JsError String × List WalletCall

/-- `getWalletDetails` as stored in the registry (first argument is the
wallet provider; calling it with `undefined` would fault in JS). -/
def getWalletDetailsMethod :
    Option WalletOps → ArgsV → Except JsError String × List WalletCall
  | some w, _ => WalletActionProvider.getWalletDetails w
  | none, _ => (.error (.plain "Cannot read properties of undefined"), [])

/-- `transferTon` as stored in the registry. -/
def transferTonMethod :
    Option WalletOps → ArgsV → Except JsError String × List WalletCall
  | some w, .transferArgs d v => WalletActionProvider.transferTon w ⟨d, v⟩
  | some w, .emptyArgs => WalletActionProvider.transferTon w ⟨none, none⟩
  | none, _ => (.error (.plain "Cannot read properties of undefined"), [])

/-- `ensureWalletDeployed` as stored in the registry. -/
def ensureWalletDeployedMethod :
    Option WalletOps → ArgsV → Except JsError String × List WalletCall
  | some w, _ => WalletActionProvider.ensureWalletDeployed w
  | none, _ => (.error (.plain "Cannot read properties of undefined"), [])

/-- Modelled from the spec: the registry content for `WalletActionProvider`.
The decorator module is not among the sources; per the spec, metadata is
registered once per decorated method at class-definition time and retrieved
as an insertion-ordered map, so the entries appear in declaration order:
`get_wallet_details`, `transfer_ton`, `ensure_wallet_deployed` (the
decorator arguments — names, descriptions, schemas — are taken verbatim
from `walletActionProvider.ts`, which is among the sources). -/
def walletActionRegistered : List ActionMetadata :=
  [{ name := "get_wallet_details",
     description := "\n        This tool will return the details of the connected wallet including:\n        - Wallet address\n        - Network information\n        - Native TON balance\n        - Wallet provider name and type\n        - Deployment status\n        ",
     schemaId := "GetWalletDetailsSchema",
     walletProvider := true,
     invoke := getWalletDetailsMethod },
   { name := "transfer_ton",
     description := "\n        Transfer TON tokens to another address.\n        - Requires a connected wallet with sufficient balance\n        - Amount is specified in TON units (not nano)\n        - Returns transaction hash when successful\n        ",
     schemaId := "NativeTransferSchema",
     walletProvider := true,
     invoke := transferTonMethod },
   { name := "ensure_wallet_deployed",
     description := "\n        Checks if the wallet is deployed and deploys it if not.\n        - Returns the current deployment status\n        - If deployment is needed, initiates the deployment and returns the transaction hash\n        ",
     schemaId := "GetWalletDetailsSchema",
     walletProvider := true,
     invoke := ensureWalletDeployedMethod }]

/-- An `ActionProvider` instance: its `name`, its direct child providers
(`actionProviders`), the registry entry for its class
(`Reflect.getMetadata(ACTION_DECORATOR_KEY, provider.constructor)`, which
may be absent), and its `supportsNetwork` method. -/
inductive ActionProviderInst where
  | mk (name : String) (actionProviders : List ActionProviderInst)
       (registered : Option (List ActionMetadata))
       (supports : String → Bool)

/-- The `name` field of the provider. -/
def ActionProviderInst.name : ActionProviderInst → String
  | .mk n _ _ _ => n

/-- The `actionProviders` (direct children) field of the provider. -/
def ActionProviderInst.actionProviders : ActionProviderInst → List ActionProviderInst
  | .mk _ c _ _ => c

/-- The registry entry for the class of the provider, or `none` when absent. -/
def ActionProviderInst.registered : ActionProviderInst → Option (List ActionMetadata)
  | .mk _ _ r _ => r

/-- The `supportsNetwork` method of the provider. -/
def ActionProviderInst.supports : ActionProviderInst → String → Bool
  | .mk _ _ _ s => s

/-- The `ActionProvider` constructor: rejects an empty or all-whitespace
name with `ActionProviderError("Action provider name cannot be empty")`,
otherwise stores the name and the children. -/
def ActionProvider.construct (name : String) (children : List ActionProviderInst)
    (registered : Option (List ActionMetadata)) (supports : String → Bool) :
    Except JsError ActionProviderInst :=
  if name.isEmpty || jsTrim name = "" then
    .error (.actionProviderError "Action provider name cannot be empty" none)
  else .ok (.mk name children registered supports)

/-- An `Action` as returned by `getActions`: name, description, schema and
the `invoke` closure bound to a wallet provider. -/
structure ActionRecord where
  name : String
  description : String
  schemaId : String
  invoke : ArgsV → Except JsError String × List WalletCall

/-- The actions contributed by one provider inside
`ActionProvider.getActions`: nothing when its registry entry is absent,
otherwise one `Action` per metadata entry, whose `invoke` passes the bound
wallet provider as first argument exactly when the metadata says so. -/
def providerContribution (wp : WalletOps) (prov : ActionProviderInst) :
    List ActionRecord :=
  match prov.registered with
  | none => []
  | some mds => mds.map fun m =>
      { name := m.name, description := m.description, schemaId := m.schemaId,
        invoke := fun a =>
          if m.walletProvider then m.invoke (some wp) a else m.invoke none a }

/-- The action list built by `ActionProvider.getActions`: the provider
itself followed by its direct children, each contributing its registered
actions in order. -/
def ActionProviderInst.getActionsList (p : ActionProviderInst) (wp : WalletOps) :
    List ActionRecord :=
  (p :: p.actionProviders).flatMap (providerContribution wp)

/-- `ActionProvider.getActions(walletProvider)`: the body is wrapped in a
try/catch rethrowing as `ActionProviderError("Failed to get actions")`, but
nothing inside the try can throw (registry lookup and action construction
are total, and absence of a registry entry is handled by `continue`), so the
call always returns normally. -/
def ActionProviderInst.getActions (p : ActionProviderInst) (wp : WalletOps) :
    Except JsError (List ActionRecord) :=
  .ok (p.getActionsList wp)

/-- The singleton `walletActionProvider` (a `WalletActionProvider` built
with no child providers; its `supportsNetwork` returns `true`
unconditionally). -/
def walletActionProvider : ActionProviderInst :=
  .mk "wallet" [] (some walletActionRegistered) (fun _ => true)

/-! ## Agent facade embedding (`agent/index.ts`) -/

/-- A `TonAgent`: exactly one wallet provider and an ordered list of action
providers. -/
structure TonAgentModel where
  walletProvider : WalletOps
  actionProviders : List ActionProviderInst

/-- The loop body of `TonAgent.getActions`: providers are visited in
declaration order; a provider supporting the bound network appends all of
its actions, an unsupported provider only records its name in the skipped
list. -/
def agentActionsAux (wp : WalletOps) :
    List ActionProviderInst → List ActionRecord × List String
  | [] => ([], [])
  | p :: rest =>
    let r := agentActionsAux wp rest
    if p.supports wp.getNetwork then
      (p.getActionsList wp ++ r.1, r.2)
    else
      (r.1, p.name :: r.2)

/-- `TonAgent.getActions()`: returns the flattened action list; the second
component is the list of skipped provider names reported by the non-fatal
diagnostic. -/
def TonAgentModel.getActions (a : TonAgentModel) :
    List ActionRecord × List String :=
  agentActionsAux a.walletProvider a.actionProviders

/-! ## Theorems for the action-provider and agent claims -/

/-- A concrete wallet provider bound to "testnet" with all operations
succeeding, used to instantiate hypotheses of the theorems below. -/
def demoWalletOps : WalletOps :=
  { getAddress := "EQDemoAddress", getName := "TON Wallet V4",
    getNetwork := "testnet", getBalance := .ok 1000000000,
    isDeployed := .ok true,
    nativeTransfer := fun _ _ => .ok "616263", deploy := .ok "646566" }

/-- A provider whose class has no decorated methods (absent registry
entry). -/
def emptyRegistryProvider : ActionProviderInst :=
  .mk "empty" [] none (fun _ => true)

/-- C1: for an agent whose wallet provider is bound to network "testnet" and
whose only action provider is the wallet action provider (with no children),
`getActions()` returns exactly three actions, named `get_wallet_details`,
`transfer_ton`, `ensure_wallet_deployed`, in that declaration order. -/
theorem C1_testnet_agent_three_actions (wp : WalletOps)
    (h : wp.getNetwork = "testnet") :
    ((TonAgentModel.getActions
        { walletProvider := wp, actionProviders := [walletActionProvider] }).1.map
      ActionRecord.name) =
      ["get_wallet_details", "transfer_ton", "ensure_wallet_deployed"] ∧
    (TonAgentModel.getActions
        { walletProvider := wp, actionProviders := [walletActionProvider] }).1.length
      = 3 := by
  constructor <;> rfl

/-- Witness for C1 at the concrete testnet wallet provider. -/
theorem C1_testnet_agent_three_actions_witness :
    ((TonAgentModel.getActions
        { walletProvider := demoWalletOps,
          actionProviders := [walletActionProvider] }).1.map
      ActionRecord.name) =
      ["get_wallet_details", "transfer_ton", "ensure_wallet_deployed"] ∧
    (TonAgentModel.getActions
        { walletProvider := demoWalletOps,
          actionProviders := [walletActionProvider] }).1.length = 3 :=
  C1_testnet_agent_three_actions demoWalletOps rfl

/-- C6: `TonAgent.getActions` visits the providers in declaration order; the
returned actions are exactly the concatenation, in order, of the action
lists of the providers supporting the bound network (each bound to the
single wallet provider of the agent, per-provider order preserved), and the
skipped set is exactly the name of each unsupported provider, once per
provider, in order. -/
theorem C6_agent_getActions_characterization (a : TonAgentModel) :
    a.getActions =
      ((a.actionProviders.filter
          (fun p => p.supports a.walletProvider.getNetwork)).flatMap
        (fun p => p.getActionsList a.walletProvider),
       (a.actionProviders.filter
          (fun p => !(p.supports a.walletProvider.getNetwork))).map
        ActionProviderInst.name) := by
  obtain ⟨wp, ps⟩ := a
  show agentActionsAux wp ps = _
  induction ps with
  | nil => rfl
  | cons p rest ih =>
    by_cases h : p.supports wp.getNetwork
    · simp [agentActionsAux, List.filter_cons, h, ih]
    · simp only [Bool.not_eq_true] at h
      simp [agentActionsAux, List.filter_cons, h, ih]

/-- C8: a provider whose registry lookup signals absence (itself or a direct
child) is treated as valid: it contributes zero actions, and
`getActions(walletProvider)` returns normally (an `ok` value, no raise). -/
theorem C8_absent_registry_is_valid (p q : ActionProviderInst) (wp : WalletOps)
    (hq : q ∈ p :: p.actionProviders) (hqr : q.registered = none) :
    providerContribution wp q = [] ∧
    p.getActions wp = .ok (p.getActionsList wp) := by
  refine ⟨?_, rfl⟩
  simp [providerContribution, hqr]

/-- Witness for C8: a provider with an absent registry entry contributes
nothing and the call returns normally. -/
theorem C8_absent_registry_is_valid_witness :
    providerContribution demoWalletOps emptyRegistryProvider = [] ∧
    emptyRegistryProvider.getActions demoWalletOps =
      .ok (emptyRegistryProvider.getActionsList demoWalletOps) :=
  C8_absent_registry_is_valid emptyRegistryProvider emptyRegistryProvider
    demoWalletOps (List.Mem.head _) rfl

/-- C7: constructing an `ActionProvider` fails with an
`ActionProviderError` exactly when the name is empty or consists only of
whitespace; for every other name it succeeds and the stored name equals the
given string. -/
theorem C7_name_validation (name : String) (children : List ActionProviderInst)
    (registered : Option (List ActionMetadata)) (supports : String → Bool) :
    ActionProvider.construct name children registered supports =
      (if name.toList.all jsIsWhitespace then
        .error (.actionProviderError "Action provider name cannot be empty" none)
      else .ok (.mk name children registered supports)) := by
  by_cases h : ∀ c ∈ name.toList, jsIsWhitespace c
  · have ht : jsTrim name = "" := (jsTrim_eq_empty_iff name).mpr h
    have hall : name.toList.all jsIsWhitespace = true := List.all_eq_true.mpr h
    unfold ActionProvider.construct
    rw [ht, hall]
    simp
  · have ht : jsTrim name ≠ "" := fun hc => h ((jsTrim_eq_empty_iff name).mp hc)
    have hne : name ≠ "" := by
      intro he
      apply h
      intro c hc
      rw [he] at hc
      simp at hc
    have hie : name.isEmpty = false := by
      rw [Bool.eq_false_iff]
      intro hc
      exact hne ((String.isEmpty_iff name).mp hc)
    have hall : name.toList.all jsIsWhitespace = false := by
      rw [Bool.eq_false_iff]
      intro hc
      exact h (List.all_eq_true.mp hc)
    unfold ActionProvider.construct
    rw [hie, hall]
    simp [ht]

/-! ## Theorems for the wallet-provider claims -/

/-- The required config fields (in check order) that are absent or empty. -/
def missingRequiredFields (c : ConfigModel) : List String :=
  (if strFalsy c.TONCENTER_API_URL then ["TONCENTER_API_URL"] else []) ++
  (if strFalsy c.TONCENTER_API_KEY then ["TONCENTER_API_KEY"] else []) ++
  (if strFalsy c.MNEMONIC_PHRASE then ["MNEMONIC_PHRASE"] else [])

/-- The validation error message `configureWithWallet` produces for a config
with missing required fields (URL/key checked first, then the mnemonic). -/
def cfgErrorMsg (c : ConfigModel) : String :=
  if strFalsy c.TONCENTER_API_URL || strFalsy c.TONCENTER_API_KEY then
    "TONCENTER_API_URL and TONCENTER_API_KEY are required"
  else "MNEMONIC_PHRASE is required"

/-- The first missing required field in check order. -/
def cfgFirstMissing (c : ConfigModel) : String :=
  if strFalsy c.TONCENTER_API_URL then "TONCENTER_API_URL"
  else if strFalsy c.TONCENTER_API_KEY then "TONCENTER_API_KEY"
  else "MNEMONIC_PHRASE"

theorem missingRequiredFields_eq_nil_iff (c : ConfigModel) :
    missingRequiredFields c = [] ↔
      strFalsy c.TONCENTER_API_URL = false ∧
      strFalsy c.TONCENTER_API_KEY = false ∧
      strFalsy c.MNEMONIC_PHRASE = false := by
  unfold missingRequiredFields
  cases hu : strFalsy c.TONCENTER_API_URL <;>
    cases hk : strFalsy c.TONCENTER_API_KEY <;>
      cases hm : strFalsy c.MNEMONIC_PHRASE <;> simp

/-- The address of the configured wallet provider, when configuration
succeeds. -/
def configuredAddress (env : SdkEnv) (c : ConfigModel) : Option String :=
  match (WalletProvider.configureWithWallet env c).1 with
  | .ok p => some p.getAddress
  | .error _ => none

/-- C4: a config missing the RPC endpoint, the RPC key or the mnemonic makes
`configureWithWallet` fail with a `WalletProviderError` whose message names
a missing field, and with an empty step log: no TON client construction, no
key derivation, no contract opening happens before the failure. -/
theorem C4_configure_missing_field (env : SdkEnv) (c : ConfigModel)
    (h : missingRequiredFields c ≠ []) :
    WalletProvider.configureWithWallet env c =
      (.error (.walletProviderError (cfgErrorMsg c) none), []) ∧
    cfgFirstMissing c ∈ missingRequiredFields c ∧
    strContains (cfgFirstMissing c) (cfgErrorMsg c) = true := by
  cases hu : strFalsy c.TONCENTER_API_URL <;>
    cases hk : strFalsy c.TONCENTER_API_KEY <;>
      cases hm : strFalsy c.MNEMONIC_PHRASE
  · exact absurd ((missingRequiredFields_eq_nil_iff c).mpr ⟨hu, hk, hm⟩) h
  all_goals
    refine ⟨?_, ?_, ?_⟩
    · simp [WalletProvider.configureWithWallet, cfgErrorMsg, hu, hk, hm]
    · simp [missingRequiredFields, cfgFirstMissing, hu, hk, hm]
    · simp only [cfgFirstMissing, cfgErrorMsg, hu, hk, hm]
      decide

/-- A config with only the mnemonic missing. -/
def demoConfigNoMnemonic : ConfigModel :=
  { TONCENTER_API_URL := some "https://toncenter.example/api",
    TONCENTER_API_KEY := some "key-1", MNEMONIC_PHRASE := none,
    WORKCHAIN := none, NETWORK := some "testnet" }

/-- A concrete SDK oracle used to instantiate the theorems below. -/
def demoSdkEnv : SdkEnv :=
  { mnemonicToPrivateKey := fun m => { publicKey := m.length, secretKey := m.length + 1 },
    walletAddress := fun pk wc => "EQAddr-" ++ toString pk ++ "-" ++ toString wc,
    parseAddress := fun s =>
      if s = "EQValidDest" then .ok s
      else .error ("Unknown address type: " ++ s),
    toNano := fun _ => .ok 1500000000 }

/-- Witness for C4: missing mnemonic fails fast, names the field, runs no
post-validation step. -/
theorem C4_configure_missing_field_witness :
    WalletProvider.configureWithWallet demoSdkEnv demoConfigNoMnemonic =
      (.error (.walletProviderError (cfgErrorMsg demoConfigNoMnemonic) none), []) ∧
    cfgFirstMissing demoConfigNoMnemonic ∈ missingRequiredFields demoConfigNoMnemonic ∧
    strContains (cfgFirstMissing demoConfigNoMnemonic)
      (cfgErrorMsg demoConfigNoMnemonic) = true :=
  C4_configure_missing_field demoSdkEnv demoConfigNoMnemonic (by decide)

/-- C5: with all required fields present, the derived wallet address depends
only on the mnemonic phrase and the workchain: two `configureWithWallet`
calls (in particular two calls with identical config inputs) agree on
`getAddress()`, and both succeed. -/
theorem C5_configure_address_deterministic (env : SdkEnv) (c₁ c₂ : ConfigModel)
    (h₁ : missingRequiredFields c₁ = []) (h₂ : missingRequiredFields c₂ = [])
    (hm : c₁.MNEMONIC_PHRASE = c₂.MNEMONIC_PHRASE)
    (hw : c₁.WORKCHAIN = c₂.WORKCHAIN) :
    configuredAddress env c₁ = configuredAddress env c₂ ∧
    (configuredAddress env c₁).isSome = true := by
  obtain ⟨hu₁, hk₁, hm₁⟩ := (missingRequiredFields_eq_nil_iff c₁).mp h₁
  obtain ⟨hu₂, hk₂, hm₂⟩ := (missingRequiredFields_eq_nil_iff c₂).mp h₂
  constructor
  · simp [configuredAddress, WalletProvider.configureWithWallet,
      hu₁, hk₁, hm₁, hu₂, hk₂, hm₂, TonWalletProvider.construct,
      TonWalletProviderModel.getAddress, hm, hw]
  · simp [configuredAddress, WalletProvider.configureWithWallet,
      hu₁, hk₁, hm₁, TonWalletProvider.construct]

/-- Two configs sharing mnemonic and workchain but differing in endpoint,
key and network tag. -/
def demoConfigA : ConfigModel :=
  { TONCENTER_API_URL := some "https://toncenter.example/api",
    TONCENTER_API_KEY := some "key-1",
    MNEMONIC_PHRASE := some "abandon ability able about",
    WORKCHAIN := some 0, NETWORK := some "testnet" }

def demoConfigB : ConfigModel :=
  { TONCENTER_API_URL := some "https://other.example/api",
    TONCENTER_API_KEY := some "key-2",
    MNEMONIC_PHRASE := some "abandon ability able about",
    WORKCHAIN := some 0, NETWORK := none }

/-- Witness for C5 at two concrete configs. -/
theorem C5_configure_address_deterministic_witness :
    configuredAddress demoSdkEnv demoConfigA = configuredAddress demoSdkEnv demoConfigB ∧
    (configuredAddress demoSdkEnv demoConfigA).isSome = true :=
  C5_configure_address_deterministic demoSdkEnv demoConfigA demoConfigB
    (by decide) (by decide) rfl rfl

/-- C9: the `TonWalletProvider` constructor succeeds when `wallet`,
`contract`, `tonClient` and `keyPair` are present, and applies the JS-falsy
defaults: the stored network is `config.network || "mainnet"` (so `"mainnet"`
when the network tag is omitted) and the stored workchain is
`config.workchain || 0` (so `0` when the workchain is omitted), as reported
by `getNetwork()` and `getWorkchain()`. -/
theorem C9_constructor_defaults (cfg : WalletProviderConfigModel)
    (w : WalletV4Model) (kp : KeyPairModel)
    (hw : cfg.wallet = some w) (hk : cfg.keyPair = some kp)
    (hc : cfg.contract = true) (ht : cfg.tonClient = true) :
    (TonWalletProvider.construct cfg).map TonWalletProviderModel.getNetwork =
      .ok (jsOrStr cfg.network "mainnet") ∧
    (TonWalletProvider.construct cfg).map TonWalletProviderModel.getWorkchain =
      .ok (jsOrInt cfg.workchain 0) ∧
    jsOrStr none "mainnet" = "mainnet" ∧ jsOrInt none 0 = 0 := by
  refine ⟨?_, ?_, rfl, rfl⟩ <;>
    simp [TonWalletProvider.construct, hw, hk, hc, ht, Except.map,
      TonWalletProviderModel.getNetwork, TonWalletProviderModel.getWorkchain]

/-- A constructor config with network tag and workchain omitted. -/
def demoWalletCfg : WalletProviderConfigModel :=
  { wallet := some { publicKey := 3, workchain := 0, address := "EQAddr-3-0" },
    contract := true, tonClient := true,
    keyPair := some { publicKey := 3, secretKey := 4 },
    network := none, workchain := none }

/-- Witness for C9 at a config omitting both the network tag and the
workchain. -/
theorem C9_constructor_defaults_witness :
    (TonWalletProvider.construct demoWalletCfg).map TonWalletProviderModel.getNetwork =
      .ok (jsOrStr demoWalletCfg.network "mainnet") ∧
    (TonWalletProvider.construct demoWalletCfg).map TonWalletProviderModel.getWorkchain =
      .ok (jsOrInt demoWalletCfg.workchain 0) ∧
    jsOrStr none "mainnet" = "mainnet" ∧ jsOrInt none 0 = 0 :=
  C9_constructor_defaults demoWalletCfg _ _ rfl rfl rfl rfl

/-- C3: on a wallet whose on-chain state is "active", `deploy()` returns the
sentinel "Wallet is already deployed" without error, performing only the
state query; a second sequential call (the chain oracle `o₂` it observes is
again in state "active", since the first call submitted nothing) returns the
same sentinel, and the combined trace of both calls contains no transfer or
deployment submission. -/
theorem C3_deploy_idempotent_when_deployed (o₁ o₂ : ChainOracle)
    (w : TonWalletProviderModel)
    (h₁ : o₁.getState = .ok "active") (h₂ : o₂.getState = .ok "active") :
    TonWalletProviderModel.deploy o₁ w =
      (.ok "Wallet is already deployed", [.getStateCall]) ∧
    TonWalletProviderModel.deploy o₂ w =
      (.ok "Wallet is already deployed", [.getStateCall]) ∧
    (((TonWalletProviderModel.deploy o₁ w).2 ++
        (TonWalletProviderModel.deploy o₂ w).2).all
      (fun c => !c.isSubmission)) = true := by
  have e₁ : TonWalletProviderModel.deploy o₁ w =
      (.ok "Wallet is already deployed", [.getStateCall]) := by
    simp [TonWalletProviderModel.deploy, TonWalletProviderModel.isDeployed, h₁]
  have e₂ : TonWalletProviderModel.deploy o₂ w =
      (.ok "Wallet is already deployed", [.getStateCall]) := by
    simp [TonWalletProviderModel.deploy, TonWalletProviderModel.isDeployed, h₂]
  refine ⟨e₁, e₂, ?_⟩
  rw [e₁, e₂]
  decide

/-- A chain oracle for an account in state "active". -/
def demoOracle : ChainOracle :=
  { getState := .ok "active", getSeqno := .ok 7,
    sendTransferRes := .ok "616263", deployRes := .ok "646566",
    getBalanceRes := .ok 5000000000 }

/-- A constructed TON wallet provider. -/
def demoTonProvider : TonWalletProviderModel :=
  { wallet := { publicKey := 3, workchain := 0, address := "EQAddr-3-0" },
    keyPair := { publicKey := 3, secretKey := 4 },
    network := "testnet", workchain := 0 }

/-- Witness for C3 on the concrete deployed wallet. -/
theorem C3_deploy_idempotent_when_deployed_witness :
    TonWalletProviderModel.deploy demoOracle demoTonProvider =
      (.ok "Wallet is already deployed", [.getStateCall]) ∧
    TonWalletProviderModel.deploy demoOracle demoTonProvider =
      (.ok "Wallet is already deployed", [.getStateCall]) ∧
    (((TonWalletProviderModel.deploy demoOracle demoTonProvider).2 ++
        (TonWalletProviderModel.deploy demoOracle demoTonProvider).2).all
      (fun c => !c.isSubmission)) = true :=
  C3_deploy_idempotent_when_deployed demoOracle demoOracle demoTonProvider rfl rfl

/-- Whether a result is a failure carrying a `WalletProviderError`. -/
def resultIsWalletProviderError : Except JsError String → Bool
  | .error e => e.isWalletProviderError
  | .ok _ => false

/-- C2 evaluation: on a malformed destination address the transfer fails
while parsing the destination — the chain-call log is empty, so no sequence
number was fetched and nothing was signed or submitted — but the error is a
plain `Error("Failed to transfer TON: ...")`, not a `WalletProviderError`
(contradicting the base-class contract documented on
`WalletProvider.nativeTransfer`). -/
theorem C2_nativeTransfer_malformed_is_plain_error :
    TonWalletProviderModel.nativeTransfer demoSdkEnv demoOracle demoTonProvider
        "not-an-address" "1.5" =
      (.error (.plain
        "Failed to transfer TON: Error: Unknown address type: not-an-address"),
       []) ∧
    resultIsWalletProviderError
      (TonWalletProviderModel.nativeTransfer demoSdkEnv demoOracle demoTonProvider
        "not-an-address" "1.5").1 = false := by
  constructor <;> rfl

/-- Is a wallet call an invocation of `nativeTransfer`? -/
def WalletCall.isNativeTransferCall : WalletCall → Bool
  | .nativeTransferCall _ _ => true
  | _ => false

/-- A successful result, or a failure that is a `WalletActionError` with
message "Failed to transfer TON" wrapping an underlying cause. -/
def isWrappedTransferFailure : Except JsError String → Bool
  | .ok _ => true
  | .error (.walletActionError m (some _)) => m == "Failed to transfer TON"
  | .error _ => false

/-- The inner precondition error `transferTon` throws: missing arguments are
detected before the deployment check. -/
def transferPreconditionCause (args : TransferArgs) : JsError :=
  if strFalsy args.dst || strFalsy args.value then
    .walletActionError "Destination address and transfer amount are required" none
  else .walletActionError "Wallet is not deployed. Please deploy the wallet first." none

/-- The wallet calls made before a precondition failure of `transferTon`:
none when an argument is missing, only the deployment check otherwise. -/
def transferPreconditionTrace (args : TransferArgs) : List WalletCall :=
  if strFalsy args.dst || strFalsy args.value then [] else [.isDeployedCall]

/-- C10: every failing run of `transfer_ton` surfaces as a
`WalletActionError` with message "Failed to transfer TON" wrapping the
underlying cause; and when the destination or value argument is missing, or
the wallet is not deployed, the action fails with the corresponding wrapped
precondition error without ever calling `nativeTransfer`. -/
theorem C10_transfer_ton_failure_discipline (w : WalletOps) (args : TransferArgs) :
    isWrappedTransferFailure (WalletActionProvider.transferTon w args).1 = true ∧
    (((strFalsy args.dst || strFalsy args.value) = true ∨
        w.isDeployed = .ok false) →
      WalletActionProvider.transferTon w args =
        (.error (.walletActionError "Failed to transfer TON"
          (some (transferPreconditionCause args))),
         transferPreconditionTrace args) ∧
      ((WalletActionProvider.transferTon w args).2.all
        (fun c => !c.isNativeTransferCall)) = true) := by
  constructor
  · rcases htry : WalletActionProvider.transferTonTry w args with ⟨res, fx⟩
    cases res with
    | ok s => simp [WalletActionProvider.transferTon, htry, isWrappedTransferFailure]
    | error e => simp [WalletActionProvider.transferTon, htry, isWrappedTransferFailure]
  · intro h
    by_cases hf : (strFalsy args.dst || strFalsy args.value) = true
    · have e : WalletActionProvider.transferTon w args =
          (.error (.walletActionError "Failed to transfer TON"
            (some (.walletActionError
              "Destination address and transfer amount are required" none))),
           []) := by
        simp [WalletActionProvider.transferTon,
          WalletActionProvider.transferTonTry, hf]
      rw [e]
      constructor
      · simp [transferPreconditionCause, transferPreconditionTrace, hf]
      · decide
    · have hfe : (strFalsy args.dst || strFalsy args.value) = false :=
        Bool.eq_false_iff.mpr hf
      have hd : w.isDeployed = .ok false := (h.resolve_left hf)
      have e : WalletActionProvider.transferTon w args =
          (.error (.walletActionError "Failed to transfer TON"
            (some (.walletActionError
              "Wallet is not deployed. Please deploy the wallet first." none))),
           [.isDeployedCall]) := by
        simp [WalletActionProvider.transferTon,
          WalletActionProvider.transferTonTry, hfe, hd]
      rw [e]
      constructor
      · simp [transferPreconditionCause, transferPreconditionTrace, hfe]
      · decide

/-- Witness for C10 with a missing destination argument: the action fails
with the wrapped precondition error and an empty wallet-call trace. -/
theorem C10_transfer_ton_failure_discipline_witness :
    isWrappedTransferFailure
      (WalletActionProvider.transferTon demoWalletOps
        { dst := none, value := some "1" }).1 = true ∧
    WalletActionProvider.transferTon demoWalletOps
        { dst := none, value := some "1" } =
      (.error (.walletActionError "Failed to transfer TON"
        (some (transferPreconditionCause { dst := none, value := some "1" }))),
       transferPreconditionTrace { dst := none, value := some "1" }) ∧
    ((WalletActionProvider.transferTon demoWalletOps
        { dst := none, value := some "1" }).2.all
      (fun c => !c.isNativeTransferCall)) = true := by
  have h := C10_transfer_ton_failure_discipline demoWalletOps
    { dst := none, value := some "1" }
  have h2 := h.2 (Or.inl (by decide))
  exact ⟨h.1, h2.1, h2.2⟩
